import Mathlib

/-!
Shallow embedding of the Personal Finance Tracker's aggregation logic.

The embedding follows the repository's source:
  * `Budget` and its virtual fields `remaining`, `percentageUsed`, `status`
    mirror the Mongoose budget schema (`budgetSchema.virtual(...)`).
  * `summary`, `categoryBreakdown`, `monthlyTrends` mirror the three
    handlers of `backend/routes/reports.js` (aggregation pipelines over the
    user's transactions, modelled as explicit lists).
  * `createBudget`, `updateBudget` mirror the POST/PUT budget route
    handlers; `createTransaction`, `updateTransaction` mirror the
    POST/PUT transaction route handlers.

Monetary values (JS numbers) are modelled as rationals; Mongo ObjectIds as
naturals; a JS `Date` as a calendar date plus milliseconds-of-day, compared
lexicographically (JS compares epoch milliseconds, which agrees with the
lexicographic order on well-formed calendar dates).
-/

/-- A JS `Date`: calendar fields plus milliseconds within the day. -/
structure DateTime where
  year : ℕ
  month : ℕ
  day : ℕ
  msOfDay : ℕ
deriving DecidableEq, Repr, Inhabited

/-- Epoch-order comparison of two dates (JS `<=` on `Date` values),
as the lexicographic order on (year, month, day, msOfDay). -/
def dateLe (a b : DateTime) : Bool :=
  if a.year ≠ b.year then decide (a.year < b.year)
  else if a.month ≠ b.month then decide (a.month < b.month)
  else if a.day ≠ b.day then decide (a.day < b.day)
  else decide (a.msOfDay ≤ b.msOfDay)

/-- Transaction type enum: `['income', 'expense']`. -/
inductive TxType where
  | income
  | expense
deriving DecidableEq, Repr, Inhabited

/-- Budget period enum: `['weekly', 'monthly', 'yearly']`. -/
inductive Period where
  | weekly
  | monthly
  | yearly
deriving DecidableEq, Repr, Inhabited

/-- Payment method enum of the transaction schema. -/
inductive PaymentMethod where
  | cash
  | card
  | bank_transfer
  | upi
  | wallet
  | other
deriving DecidableEq, Repr, Inhabited

/-- The category schema (`Category` model): owning user, name, type,
color, icon, active flag. -/
structure Category where
  id : ℕ
  user : ℕ
  name : String
  type : TxType
  color : String
  icon : String
  isDefault : Bool
  isActive : Bool
deriving DecidableEq, Repr, Inhabited

/-- The transaction schema (`Transaction` model): the fields the route
handlers read and write. -/
structure Transaction where
  user : ℕ
  type : TxType
  amount : ℚ
  description : String
  category : ℕ
  date : DateTime
  tags : List String
  paymentMethod : PaymentMethod
  notes : String
deriving DecidableEq, Repr, Inhabited

/-- `alertThresholds` sub-document of the budget schema
(defaults: warning 80, critical 95). -/
structure AlertThresholds where
  warning : ℚ
  critical : ℚ
deriving DecidableEq, Repr, Inhabited

/-- `notifications` sub-document of the budget schema. -/
structure BudgetNotifications where
  enabled : Bool
  lastWarningAlert : Option DateTime
  lastCriticalAlert : Option DateTime
  lastExceededAlert : Option DateTime
deriving DecidableEq, Repr, Inhabited

/-- The budget schema (`Budget` model). -/
structure Budget where
  user : ℕ
  category : ℕ
  amount : ℚ
  period : Period
  startDate : DateTime
  endDate : DateTime
  spent : ℚ
  alertThresholds : AlertThresholds
  notifications : BudgetNotifications
  isActive : Bool
  notes : String
deriving DecidableEq, Repr, Inhabited

/-- Budget status classification (the values of the `status` virtual). -/
inductive BStatus where
  | good
  | warning
  | critical
  | exceeded
deriving DecidableEq, Repr, Inhabited

namespace Budget

/-- `budgetSchema.virtual('remaining')`:
`Math.max(0, this.amount - this.spent)`. -/
def remaining (b : Budget) : ℚ :=
  max 0 (b.amount - b.spent)

/-- `budgetSchema.virtual('percentageUsed')`:
`this.amount > 0 ? (this.spent / this.amount) * 100 : 0`. -/
def percentageUsed (b : Budget) : ℚ :=
  if b.amount > 0 then b.spent / b.amount * 100 else 0

/-- `budgetSchema.virtual('status')`:
`exceeded` at ≥ 100, else `critical` at ≥ critical threshold, else
`warning` at ≥ warning threshold, else `good`. -/
def status (b : Budget) : BStatus :=
  if b.percentageUsed ≥ 100 then .exceeded
  else if b.percentageUsed ≥ b.alertThresholds.critical then .critical
  else if b.percentageUsed ≥ b.alertThresholds.warning then .warning
  else .good

end Budget

/-- `spent` of the spec's `BudgetStatus(budget, transactions)` operation:
the sum of expense-type transaction amounts in the budget's category whose
date falls within `[startDate, endDate]` (as the dashboard computes it for
its budget cards). -/
def computeSpent (b : Budget) (ts : List Transaction) : ℚ :=
  ((ts.filter (fun t =>
    t.type == TxType.expense && t.category == b.category &&
    dateLe b.startDate t.date && dateLe t.date b.endDate)).map
      (fun t => t.amount)).sum

/-- The derived view of the spec's `BudgetStatus` operation. -/
structure BudgetView where
  spent : ℚ
  remaining : ℚ
  percentageUsed : ℚ
  status : BStatus
deriving DecidableEq, Repr, Inhabited

/-- `BudgetStatus(budget, transactions)`: recompute `spent` from the
transaction list, then read the schema's virtual fields. -/
def budgetStatus (b : Budget) (ts : List Transaction) : BudgetView :=
  let b' := { b with spent := computeSpent b ts }
  { spent := b'.spent
    remaining := b'.remaining
    percentageUsed := b'.percentageUsed
    status := b'.status }

/-- C1: the `status` virtual classifies by threshold order with the highest
threshold winning: `exceeded` iff percentageUsed ≥ 100, `critical` iff
below 100 but ≥ the critical threshold, `warning` iff below those but ≥
the warning threshold, `good` otherwise; in particular at exactly 100%
(even with a critical threshold of 100) the status is `exceeded`. -/
theorem budget_status_threshold_order (b : Budget) :
    (b.status = .exceeded ↔ b.percentageUsed ≥ 100) ∧
    (b.status = .critical ↔
      b.percentageUsed < 100 ∧ b.percentageUsed ≥ b.alertThresholds.critical) ∧
    (b.status = .warning ↔
      b.percentageUsed < 100 ∧ b.percentageUsed < b.alertThresholds.critical ∧
        b.percentageUsed ≥ b.alertThresholds.warning) ∧
    (b.status = .good ↔
      b.percentageUsed < 100 ∧ b.percentageUsed < b.alertThresholds.critical ∧
        b.percentageUsed < b.alertThresholds.warning) ∧
    (b.percentageUsed = 100 ∧ b.alertThresholds.critical = 100 →
      b.status = .exceeded) := by
  unfold Budget.status
  constructor
  · split <;> (try split) <;> (try split) <;> simp_all
  constructor
  · split <;> (try split) <;> (try split) <;> simp_all
  constructor
  · split <;> (try split) <;> (try split) <;> simp_all
  constructor
  · split <;> (try split) <;> (try split) <;> simp_all
  · rintro ⟨h1, h2⟩
    simp [h1]

/-- Witness for C1: a budget at exactly 100% whose critical threshold is
also 100 is classified `exceeded`. -/
theorem budget_status_threshold_order_witness :
    ({ user := 1, category := 1, amount := 50, period := .monthly,
       startDate := ⟨2024, 3, 1, 0⟩, endDate := ⟨2024, 3, 31, 0⟩,
       spent := 50, alertThresholds := ⟨80, 100⟩,
       notifications := ⟨true, none, none, none⟩, isActive := true,
       notes := "" } : Budget).status = .exceeded := by
  have h := (budget_status_threshold_order
    { user := 1, category := 1, amount := 50, period := .monthly,
      startDate := ⟨2024, 3, 1, 0⟩, endDate := ⟨2024, 3, 31, 0⟩,
      spent := 50, alertThresholds := ⟨80, 100⟩,
      notifications := ⟨true, none, none, none⟩, isActive := true,
      notes := "" }).2.2.2.2
  exact h ⟨by norm_num [Budget.percentageUsed], rfl⟩

/-- C2: `BudgetStatus.remaining` equals `max(0, amount − spent)` and is
never negative, also when the recomputed spent exceeds the amount. -/
theorem budgetStatus_remaining_nonneg (b : Budget) (ts : List Transaction) :
    (budgetStatus b ts).remaining = max 0 (b.amount - computeSpent b ts) ∧
    0 ≤ (budgetStatus b ts).remaining ∧
    (computeSpent b ts > b.amount → (budgetStatus b ts).remaining = 0) := by
  refine ⟨rfl, le_max_left _ _, fun h => ?_⟩
  show max 0 (b.amount - computeSpent b ts) = 0
  rw [max_eq_left (by linarith)]

/-- Witness for C2 at the spec's running example: budget of 120 on category
1 for March 2024, expenses 100 and 50 in range, so spent 150 > 120 and
remaining is 0. -/
theorem budgetStatus_remaining_nonneg_witness :
    (budgetStatus
      { user := 1, category := 1, amount := 120, period := .monthly,
        startDate := ⟨2024, 3, 1, 0⟩, endDate := ⟨2024, 3, 31, 0⟩,
        spent := 0, alertThresholds := ⟨80, 95⟩,
        notifications := ⟨true, none, none, none⟩, isActive := true,
        notes := "" }
      [{ user := 1, type := .expense, amount := 100, description := "a",
         category := 1, date := ⟨2024, 3, 1, 0⟩, tags := [],
         paymentMethod := .other, notes := "" },
       { user := 1, type := .expense, amount := 50, description := "b",
         category := 1, date := ⟨2024, 3, 15, 0⟩, tags := [],
         paymentMethod := .other, notes := "" }]).remaining = 0 :=
  (budgetStatus_remaining_nonneg _ _).2.2 (by
    norm_num [computeSpent, dateLe, List.filter])

/-- C3: `percentageUsed` is `spent/amount × 100` when the amount is
positive and `0` when the amount is `0`; with the default thresholds
(warning 80, critical 95) a zero-amount budget is classified `good`. -/
theorem budget_percentageUsed_zero_guard (b : Budget) :
    (0 < b.amount → b.percentageUsed = b.spent / b.amount * 100) ∧
    (b.amount = 0 → b.percentageUsed = 0) ∧
    (b.amount = 0 → b.alertThresholds = ⟨80, 95⟩ → b.status = .good) := by
  refine ⟨fun h => ?_, fun h => ?_, fun h ht => ?_⟩
  · simp [Budget.percentageUsed, h]
  · simp [Budget.percentageUsed, h]
  · simp [Budget.status, Budget.percentageUsed, h, ht]
    norm_num

/-- Witness for C3: a budget with amount 0 and default thresholds has
`percentageUsed = 0` and status `good`. -/
theorem budget_percentageUsed_zero_guard_witness :
    ({ user := 1, category := 2, amount := 0, period := .monthly,
       startDate := ⟨2024, 1, 1, 0⟩, endDate := ⟨2024, 1, 31, 0⟩,
       spent := 5, alertThresholds := ⟨80, 95⟩,
       notifications := ⟨true, none, none, none⟩, isActive := true,
       notes := "" } : Budget).percentageUsed = 0 ∧
    ({ user := 1, category := 2, amount := 0, period := .monthly,
       startDate := ⟨2024, 1, 1, 0⟩, endDate := ⟨2024, 1, 31, 0⟩,
       spent := 5, alertThresholds := ⟨80, 95⟩,
       notifications := ⟨true, none, none, none⟩, isActive := true,
       notes := "" } : Budget).status = .good :=
  ⟨(budget_percentageUsed_zero_guard _).2.1 rfl,
   (budget_percentageUsed_zero_guard _).2.2 rfl rfl⟩

/-- Per-type slice of the `GET /api/reports/summary` response
(`{ total, count, avgAmount }`, defaulting to zeros when the type is
absent from the aggregation result). -/
structure TypeSummary where
  total : ℚ
  count : ℕ
  avgAmount : ℚ
deriving DecidableEq, Repr, Inhabited

/-- The `$group` by `$type` stage of the summary pipeline, restricted to
one type: total, count and average amount of the matching transactions. -/
def typeSummary (ts : List Transaction) (ty : TxType) : TypeSummary :=
  let l := ts.filter (fun t => t.type == ty)
  let total := (l.map (fun t => t.amount)).sum
  { total := total
    count := l.length
    avgAmount := if l.length = 0 then 0 else total / (l.length : ℚ) }

/-- The `GET /api/reports/summary` response shape. -/
structure SummaryResult where
  income : TypeSummary
  expense : TypeSummary
  balance : ℚ
  totalTransactions : ℕ
deriving DecidableEq, Repr, Inhabited

/-- `GET /api/reports/summary`: per-type totals, balance as income minus
expense, and the overall transaction count. -/
def summary (ts : List Transaction) : SummaryResult :=
  let i := typeSummary ts .income
  let e := typeSummary ts .expense
  { income := i
    expense := e
    balance := i.total - e.total
    totalTransactions := i.count + e.count }

/-- One group of the `GET /api/reports/category-breakdown` response:
`{ _id, name, color, total, count, avgAmount }`. -/
structure BreakdownEntry where
  id : ℕ
  name : String
  color : String
  total : ℚ
  count : ℕ
  avgAmount : ℚ
deriving DecidableEq, Repr, Inhabited

/-- The `$lookup` + `$unwind` stages of the breakdown pipeline: each
transaction of the requested type is paired with the category document its
reference resolves to; a transaction whose reference does not resolve is
dropped by the `$unwind`. -/
def resolvedPairs (ts : List Transaction) (cats : List Category)
    (ty : TxType) : List (Transaction × Category) :=
  (ts.filter (fun t => t.type == ty)).filterMap (fun t =>
    (cats.find? (fun c => c.id == t.category)).map (fun c => (t, c)))

/-- One group of the `$group` by category stage: the entry for category id
`i`, holding the first resolved name/color (`$first`) and the group's
total, count and average. -/
def breakdownEntryFor (pairs : List (Transaction × Category)) (i : ℕ) :
    BreakdownEntry :=
  let group := pairs.filter (fun p => p.1.category == i)
  let total := (group.map (fun p => p.1.amount)).sum
  { id := i
    name := ((group.head?).map (fun p => p.2.name)).getD ""
    color := ((group.head?).map (fun p => p.2.color)).getD ""
    total := total
    count := group.length
    avgAmount := if group.length = 0 then 0 else total / (group.length : ℚ) }

/-- The `$group` by category stage of the breakdown pipeline: one entry
per distinct category id among the resolved pairs. -/
def breakdownGroups (ts : List Transaction) (cats : List Category)
    (ty : TxType) : List BreakdownEntry :=
  let pairs := resolvedPairs ts cats ty
  ((pairs.map (fun p => p.1.category)).dedup).map (breakdownEntryFor pairs)

/-- `GET /api/reports/category-breakdown`: the grouped entries sorted by
total, descending (`$sort: { total: -1 }`). -/
def categoryBreakdown (ts : List Transaction) (cats : List Category)
    (ty : TxType) : List BreakdownEntry :=
  (breakdownGroups ts cats ty).insertionSort (fun a b => b.total ≤ a.total)

/-- One bucket of the `GET /api/reports/monthly-trends` response. -/
structure TrendEntry where
  month : String
  income : ℚ
  expense : ℚ
  balance : ℚ
  incomeCount : ℕ
  expenseCount : ℕ
deriving DecidableEq, Repr, Inhabited

/-- The handler's month labels. -/
def monthNames : List String :=
  ["Jan", "Feb", "Mar", "Apr", "May", "Jun",
   "Jul", "Aug", "Sep", "Oct", "Nov", "Dec"]

/-- The `$match` date window of the monthly-trends pipeline:
`new Date(year, 0, 1) <= date <= new Date(year, 11, 31)` (both bounds at
midnight, so December 31 only up to 00:00:00.000). -/
def inYearRange (year : ℕ) (d : DateTime) : Bool :=
  dateLe ⟨year, 1, 1, 0⟩ d && dateLe d ⟨year, 12, 31, 0⟩

/-- The transactions the monthly-trends `$match` stage keeps. -/
def yearFiltered (ts : List Transaction) (year : ℕ) : List Transaction :=
  ts.filter (fun t => inYearRange year t.date)

/-- Bucket `i` (0-based; calendar month `i + 1`) of the monthly-trends
response: per-type totals and counts over the matched transactions of that
month, with zero defaults for absent months. -/
def trendEntry (l : List Transaction) (i : ℕ) : TrendEntry :=
  let monthTs := l.filter (fun t => t.date.month == i + 1)
  let income := ((monthTs.filter (fun t => t.type == TxType.income)).map
    (fun t => t.amount)).sum
  let expense := ((monthTs.filter (fun t => t.type == TxType.expense)).map
    (fun t => t.amount)).sum
  { month := monthNames.getD i ""
    income := income
    expense := expense
    balance := income - expense
    incomeCount := (monthTs.filter (fun t => t.type == TxType.income)).length
    expenseCount := (monthTs.filter (fun t => t.type == TxType.expense)).length }

/-- `GET /api/reports/monthly-trends`: one entry per month name, zero
filled where the grouped data has no bucket. -/
def monthlyTrends (ts : List Transaction) (year : ℕ) : List TrendEntry :=
  (List.range 12).map (trendEntry (yearFiltered ts year))

/-- Summing an indicator over a key list missing the key yields zero. -/
lemma sum_map_ite_zero (a : ℕ) (v : ℚ) :
    ∀ keys : List ℕ, a ∉ keys →
      (keys.map (fun k => if a = k then v else 0)).sum = 0 := by
  intro keys hnotin
  induction keys with
  | nil => simp
  | cons k' ks' ih' =>
    have h1 : a ≠ k' := fun e => hnotin (e ▸ List.mem_cons_self _ _)
    have h2 : a ∉ ks' := fun e => hnotin (List.mem_cons_of_mem _ e)
    simp only [List.map_cons, List.sum_cons, if_neg h1, ih' h2, zero_add]

/-- Summing an indicator over a duplicate-free key list that contains the
key yields the value. -/
lemma sum_map_ite_eq (a : ℕ) (v : ℚ) :
    ∀ keys : List ℕ, keys.Nodup → a ∈ keys →
      (keys.map (fun k => if a = k then v else 0)).sum = v := by
  intro keys hnd hmem
  induction keys with
  | nil => cases hmem
  | cons k ks ih =>
    rcases List.mem_cons.mp hmem with h | h
    · subst h
      have hnotin : a ∉ ks := (List.nodup_cons.mp hnd).1
      simp [sum_map_ite_zero a v ks hnotin]
    · have hk : a ≠ k := fun e => ((List.nodup_cons.mp hnd).1 (e ▸ h))
      simp only [List.map_cons, List.sum_cons, if_neg hk,
        ih (List.nodup_cons.mp hnd).2 h, zero_add]

/-- Grouping a list by keys drawn from a duplicate-free covering key list
and summing per-group values gives the overall sum. -/
lemma sum_fiberwise_eq {α : Type} (key : α → ℕ) (val : α → ℚ) :
    ∀ (l : List α) (keys : List ℕ), keys.Nodup → (∀ x ∈ l, key x ∈ keys) →
      (keys.map (fun k =>
        ((l.filter (fun x => key x == k)).map val).sum)).sum
        = (l.map val).sum := by
  intro l
  induction l with
  | nil => intro keys _ _; simp
  | cons x l ih =>
    intro keys hnd hmem
    have hx : key x ∈ keys := hmem x (List.mem_cons_self _ _)
    have hrest : ∀ y ∈ l, key y ∈ keys :=
      fun y hy => hmem y (List.mem_cons_of_mem _ hy)
    have hstep : (keys.map (fun k =>
        (((x :: l).filter (fun y => key y == k)).map val).sum)).sum
        = (keys.map (fun k => (if key x = k then val x else 0) +
            ((l.filter (fun y => key y == k)).map val).sum)).sum := by
      congr 1
      apply List.map_congr_left
      intro k _
      by_cases h : key x = k
      · simp [List.filter_cons, h]
      · simp [List.filter_cons, h]
    rw [hstep, List.sum_map_add, sum_map_ite_eq (key x) (val x) keys hnd hx,
      ih keys hnd hrest]
    simp

/-- The totals of the grouped breakdown entries sum to the total amount of
the resolved transaction/category pairs. -/
lemma breakdownGroups_total_sum (ts : List Transaction) (cats : List Category)
    (ty : TxType) :
    ((breakdownGroups ts cats ty).map (fun e => e.total)).sum
      = ((resolvedPairs ts cats ty).map (fun p => p.1.amount)).sum := by
  unfold breakdownGroups breakdownEntryFor
  rw [List.map_map]
  exact sum_fiberwise_eq (fun p => p.1.category) (fun p => p.1.amount)
    (resolvedPairs ts cats ty) _ (List.nodup_dedup _)
    (fun p hp => List.mem_dedup.mpr (List.mem_map_of_mem _ hp))

/-- When every transaction of the requested type has a resolvable category
reference, the `$unwind` drops nothing: the first components of the
resolved pairs are exactly the type-filtered transactions. -/
lemma resolvedPairs_fst_of_resolvable (ts : List Transaction)
    (cats : List Category) (ty : TxType)
    (h : ∀ t ∈ ts, t.type = ty →
      (cats.find? (fun c => c.id == t.category)).isSome) :
    (resolvedPairs ts cats ty).map (fun p => p.1)
      = ts.filter (fun t => t.type == ty) := by
  unfold resolvedPairs
  induction ts with
  | nil => simp
  | cons t ts ih =>
    have hrest : ∀ t' ∈ ts, t'.type = ty →
        (cats.find? (fun c => c.id == t'.category)).isSome :=
      fun t' ht' => h t' (List.mem_cons_of_mem _ ht')
    by_cases hty : t.type = ty
    · obtain ⟨c, hc⟩ := Option.isSome_iff_exists.mp
        (h t (List.mem_cons_self _ _) hty)
      simp [List.filter_cons, List.filterMap_cons, hty, hc, ih hrest]
    · simp [List.filter_cons, hty, ih hrest]

/-- C4 fails as stated: with one expense transaction whose category
reference does not resolve, the breakdown's totals sum to 0 while the
summary total for `expense` is 100. -/
theorem categoryBreakdown_summary_mismatch :
    ((categoryBreakdown
      [{ user := 1, type := .expense, amount := 100, description := "x",
         category := 5, date := ⟨2024, 4, 2, 0⟩, tags := [],
         paymentMethod := .other, notes := "" }] [] .expense).map
        (fun e => e.total)).sum
      ≠ (typeSummary
      [{ user := 1, type := .expense, amount := 100, description := "x",
         category := 5, date := ⟨2024, 4, 2, 0⟩, tags := [],
         paymentMethod := .other, notes := "" }] .expense).total := by
  have h1 : categoryBreakdown
      [{ user := 1, type := .expense, amount := 100, description := "x",
         category := 5, date := ⟨2024, 4, 2, 0⟩, tags := [],
         paymentMethod := .other, notes := "" }] [] .expense = [] := rfl
  have h2 : (typeSummary
      [{ user := 1, type := .expense, amount := 100, description := "x",
         category := 5, date := ⟨2024, 4, 2, 0⟩, tags := [],
         paymentMethod := .other, notes := "" }] .expense).total = 100 := by
    show ((100 : ℚ) + 0 : ℚ) = 100
    norm_num
  rw [h1, h2]
  norm_num

/-- C4 (amended): when every transaction of the requested type has a
resolvable category reference, the breakdown totals sum to the summary
total for that type. -/
theorem categoryBreakdown_sums_to_summary (ts : List Transaction)
    (cats : List Category) (ty : TxType)
    (h : ∀ t ∈ ts, t.type = ty →
      (cats.find? (fun c => c.id == t.category)).isSome) :
    ((categoryBreakdown ts cats ty).map (fun e => e.total)).sum
      = (typeSummary ts ty).total := by
  have hperm : ((categoryBreakdown ts cats ty).map (fun e => e.total)).Perm
      ((breakdownGroups ts cats ty).map (fun e => e.total)) :=
    (List.perm_insertionSort _ _).map _
  rw [hperm.sum_eq, breakdownGroups_total_sum]
  have hfst := resolvedPairs_fst_of_resolvable ts cats ty h
  calc ((resolvedPairs ts cats ty).map (fun p => p.1.amount)).sum
      = (((resolvedPairs ts cats ty).map (fun p => p.1)).map
          (fun t => t.amount)).sum := by
        rw [List.map_map]
        rfl
    _ = ((ts.filter (fun t => t.type == ty)).map (fun t => t.amount)).sum := by
        rw [hfst]
    _ = (typeSummary ts ty).total := rfl

/-- Witness for the amended C4: two expense transactions in two resolvable
categories; the breakdown totals sum to the expense summary total. -/
theorem categoryBreakdown_sums_to_summary_witness :
    ((categoryBreakdown
      [{ user := 1, type := .expense, amount := 30, description := "a",
         category := 1, date := ⟨2024, 4, 2, 0⟩, tags := [],
         paymentMethod := .other, notes := "" },
       { user := 1, type := .expense, amount := 70, description := "b",
         category := 2, date := ⟨2024, 4, 3, 0⟩, tags := [],
         paymentMethod := .other, notes := "" }]
      [⟨1, 1, "Food", .expense, "#ef4444", "tag", false, true⟩,
       ⟨2, 1, "Rent", .expense, "#3b82f6", "tag", false, true⟩]
      .expense).map (fun e => e.total)).sum
      = (typeSummary
      [{ user := 1, type := .expense, amount := 30, description := "a",
         category := 1, date := ⟨2024, 4, 2, 0⟩, tags := [],
         paymentMethod := .other, notes := "" },
       { user := 1, type := .expense, amount := 70, description := "b",
         category := 2, date := ⟨2024, 4, 3, 0⟩, tags := [],
         paymentMethod := .other, notes := "" }] .expense).total :=
  categoryBreakdown_sums_to_summary _ _ _ (by
    intro t ht _
    rcases List.mem_cons.mp ht with h | h2
    · subst h; rfl
    · rcases List.mem_cons.mp h2 with h | h
      · subst h; rfl
      · exact absurd h (List.not_mem_nil t))

/-- Every resolved pair's category component is exactly what the lookup
finds for its transaction's category reference. -/
lemma resolvedPairs_find {ts : List Transaction} {cats : List Category}
    {ty : TxType} {p : Transaction × Category}
    (hp : p ∈ resolvedPairs ts cats ty) :
    cats.find? (fun c => c.id == p.1.category) = some p.2 := by
  unfold resolvedPairs at hp
  obtain ⟨t, ht, hf⟩ := List.mem_filterMap.mp hp
  obtain ⟨c, hc, he⟩ := Option.map_eq_some'.mp hf
  subst he
  exact hc

/-- C5 fails as stated: an expense transaction whose category reference is
unresolvable is dropped by the `$unwind` — the breakdown is empty, with no
`Uncategorized` bucket, even though the summary still counts it. -/
theorem categoryBreakdown_unresolvable_omitted :
    categoryBreakdown
      [{ user := 2, type := .expense, amount := 40, description := "y",
         category := 9, date := ⟨2024, 6, 1, 0⟩, tags := [],
         paymentMethod := .other, notes := "" }] [] .expense = [] ∧
    (typeSummary
      [{ user := 2, type := .expense, amount := 40, description := "y",
         category := 9, date := ⟨2024, 6, 1, 0⟩, tags := [],
         paymentMethod := .other, notes := "" }] .expense).count = 1 := by
  exact ⟨rfl, rfl⟩

/-- C5 (amended): a transaction whose category reference resolves — even
to a deactivated category — appears in the breakdown under that category's
last-known name and color; a transaction whose reference is unresolvable
is silently omitted (adding it leaves the breakdown unchanged; there is no
`Uncategorized` bucket). -/
theorem categoryBreakdown_lastKnown_or_dropped :
    (∀ (ts : List Transaction) (cats : List Category) (ty : TxType)
      (t : Transaction) (c : Category), t ∈ ts → t.type = ty →
      cats.find? (fun cc => cc.id == t.category) = some c →
      ∃ e ∈ categoryBreakdown ts cats ty,
        e.id = t.category ∧ e.name = c.name ∧ e.color = c.color ∧
          1 ≤ e.count) ∧
    (∀ (ts : List Transaction) (cats : List Category) (ty : TxType)
      (t : Transaction),
      cats.find? (fun cc => cc.id == t.category) = none →
      categoryBreakdown (t :: ts) cats ty = categoryBreakdown ts cats ty) := by
  constructor
  · intro ts cats ty t c ht hty hfind
    have hpc : (t, c) ∈ resolvedPairs ts cats ty := by
      unfold resolvedPairs
      exact List.mem_filterMap.mpr
        ⟨t, List.mem_filter.mpr ⟨ht, by simp [hty]⟩, by rw [hfind]; rfl⟩
    have hid : t.category ∈
        ((resolvedPairs ts cats ty).map (fun p => p.1.category)).dedup :=
      List.mem_dedup.mpr (List.mem_map_of_mem _ hpc)
    have hentry : breakdownEntryFor (resolvedPairs ts cats ty) t.category
        ∈ breakdownGroups ts cats ty :=
      List.mem_map_of_mem _ hid
    have hmem2 : breakdownEntryFor (resolvedPairs ts cats ty) t.category
        ∈ categoryBreakdown ts cats ty :=
      ((List.perm_insertionSort _ _).mem_iff).mpr hentry
    have hgrp : (t, c) ∈ (resolvedPairs ts cats ty).filter
        (fun p => p.1.category == t.category) :=
      List.mem_filter.mpr ⟨hpc, by simp⟩
    cases hgroup : (resolvedPairs ts cats ty).filter
        (fun p => p.1.category == t.category) with
    | nil => exact absurd (hgroup ▸ hgrp) (List.not_mem_nil _)
    | cons p0 rest =>
      have hp0 : p0 ∈ (resolvedPairs ts cats ty).filter
          (fun p => p.1.category == t.category) :=
        hgroup ▸ List.mem_cons_self p0 rest
      have hp0p : p0 ∈ resolvedPairs ts cats ty := List.mem_of_mem_filter hp0
      have heq : p0.1.category = t.category := by
        simpa using List.of_mem_filter hp0
      have hf0 := resolvedPairs_find hp0p
      rw [heq, hfind] at hf0
      have hc2 : p0.2 = c := Option.some.inj hf0.symm
      refine ⟨breakdownEntryFor (resolvedPairs ts cats ty) t.category,
        hmem2, rfl, ?_, ?_, ?_⟩
      · show (((((resolvedPairs ts cats ty).filter
            (fun p => p.1.category == t.category)).head?).map
              (fun p => p.2.name)).getD "") = c.name
        rw [hgroup]
        simp [hc2]
      · show (((((resolvedPairs ts cats ty).filter
            (fun p => p.1.category == t.category)).head?).map
              (fun p => p.2.color)).getD "") = c.color
        rw [hgroup]
        simp [hc2]
      · show 1 ≤ ((resolvedPairs ts cats ty).filter
            (fun p => p.1.category == t.category)).length
        rw [hgroup]
        simp
  · intro ts cats ty t hnone
    have hpairs : resolvedPairs (t :: ts) cats ty
        = resolvedPairs ts cats ty := by
      unfold resolvedPairs
      by_cases hty : t.type = ty
      · simp [List.filter_cons, hty, List.filterMap_cons, hnone]
      · simp [List.filter_cons, hty]
    simp [categoryBreakdown, breakdownGroups, hpairs]

/-- Witness for the amended C5: one expense on a deactivated category 1
still appears under "Food"/"#ef4444"; one expense on the unresolvable
category 9 changes nothing in the breakdown. -/
theorem categoryBreakdown_lastKnown_or_dropped_witness :
    (∃ e ∈ categoryBreakdown
      [{ user := 3, type := .expense, amount := 25, description := "w",
         category := 1, date := ⟨2024, 7, 1, 0⟩, tags := [],
         paymentMethod := .other, notes := "" }]
      [⟨1, 3, "Food", .expense, "#ef4444", "tag", false, false⟩] .expense,
      e.id = 1 ∧ e.name = "Food" ∧ e.color = "#ef4444" ∧ 1 ≤ e.count) ∧
    categoryBreakdown
      [{ user := 3, type := .expense, amount := 7, description := "z",
         category := 9, date := ⟨2024, 7, 2, 0⟩, tags := [],
         paymentMethod := .other, notes := "" },
       { user := 3, type := .expense, amount := 25, description := "w",
         category := 1, date := ⟨2024, 7, 1, 0⟩, tags := [],
         paymentMethod := .other, notes := "" }]
      [⟨1, 3, "Food", .expense, "#ef4444", "tag", false, false⟩] .expense
      = categoryBreakdown
      [{ user := 3, type := .expense, amount := 25, description := "w",
         category := 1, date := ⟨2024, 7, 1, 0⟩, tags := [],
         paymentMethod := .other, notes := "" }]
      [⟨1, 3, "Food", .expense, "#ef4444", "tag", false, false⟩] .expense :=
  ⟨categoryBreakdown_lastKnown_or_dropped.1 _ _ _ _
      ⟨1, 3, "Food", .expense, "#ef4444", "tag", false, false⟩
      (List.mem_cons_self _ _) rfl rfl,
   categoryBreakdown_lastKnown_or_dropped.2 _ _ _ _ rfl⟩

/-- Epoch order implies year order. -/
lemma dateLe_year_le {a b : DateTime} (h : dateLe a b = true) :
    a.year ≤ b.year := by
  unfold dateLe at h
  by_cases hne : a.year ≠ b.year
  · rw [if_pos hne] at h
    exact Nat.le_of_lt (by simpa using h)
  · push_neg at hne
    omega

/-- A date inside the monthly-trends `$match` window lies in the requested
year. -/
lemma inYearRange_year {y : ℕ} {d : DateTime}
    (h : inYearRange y d = true) : d.year = y := by
  unfold inYearRange at h
  rw [Bool.and_eq_true] at h
  have h1 : y ≤ d.year := by simpa using dateLe_year_le h.1
  have h2 : d.year ≤ y := by simpa using dateLe_year_le h.2
  omega

/-- Bucket `i` of the monthly-trends response, as a list lookup. -/
lemma monthlyTrends_getD (ts : List Transaction) (year : ℕ) (i : ℕ)
    (hi : i < 12) :
    (monthlyTrends ts year).getD i default
      = trendEntry (yearFiltered ts year) i := by
  simp [monthlyTrends, List.getD, List.getElem?_map, List.getElem?_range hi]

/-- C6: `MonthlyTrend` always returns exactly 12 entries, labelled in
calendar order January through December, and a month of the requested year
with no transactions yields the explicit all-zero entry. -/
theorem monthlyTrends_twelve_zero_filled (ts : List Transaction) (year : ℕ) :
    (monthlyTrends ts year).length = 12 ∧
    (∀ i, i < 12 →
      ((monthlyTrends ts year).getD i default).month = monthNames.getD i "" ∧
      ((∀ t ∈ ts, t.date.year = year → t.date.month ≠ i + 1) →
        (monthlyTrends ts year).getD i default =
          { month := monthNames.getD i "", income := 0, expense := 0,
            balance := 0, incomeCount := 0, expenseCount := 0 })) := by
  constructor
  · simp [monthlyTrends]
  · intro i hi
    rw [monthlyTrends_getD ts year i hi]
    constructor
    · rfl
    · intro hnone
      have hempty : (yearFiltered ts year).filter
          (fun t => t.date.month == i + 1) = [] := by
        rw [List.filter_eq_nil_iff]
        intro t htmem
        unfold yearFiltered at htmem
        have ht1 : t ∈ ts := List.mem_of_mem_filter htmem
        have ht2 := List.of_mem_filter htmem
        have hmonth := hnone t ht1 (inYearRange_year ht2)
        simp [hmonth]
      simp [trendEntry, hempty]

/-- Witness for C6: with no transactions at all, the trends list has 12
entries and June (index 5) is the zero entry labelled "Jun". -/
theorem monthlyTrends_twelve_zero_filled_witness :
    (monthlyTrends [] 2024).length = 12 ∧
    (monthlyTrends [] 2024).getD 5 default =
      { month := "Jun", income := 0, expense := 0, balance := 0,
        incomeCount := 0, expenseCount := 0 } :=
  ⟨(monthlyTrends_twelve_zero_filled [] 2024).1,
   ((monthlyTrends_twelve_zero_filled [] 2024).2 5 (by norm_num)).2
     (by intro t ht; exact absurd ht (List.not_mem_nil t))⟩

/-- C7 fails on the code: the `$match` upper bound is
`new Date(year, 11, 31)` — midnight at the start of December 31 — so a
transaction dated December 31 at noon of the requested year is excluded
from the aggregation entirely: it is outside the match window and every
bucket count stays zero. -/
theorem monthlyTrends_drops_dec31 :
    (⟨2024, 12, 31, 43200000⟩ : DateTime).year = 2024 ∧
    inYearRange 2024 ⟨2024, 12, 31, 43200000⟩ = false ∧
    ((monthlyTrends
      [{ user := 1, type := .expense, amount := 50, description := "dec",
         category := 1, date := ⟨2024, 12, 31, 43200000⟩, tags := [],
         paymentMethod := .other, notes := "" }] 2024).map
        (fun e => e.expenseCount)).sum = 0 := by
  refine ⟨rfl, rfl, ?_⟩
  decide

/-- `body('amount').isFloat({ min: 0.01 })` on an optional body field:
valid when absent or at least 0.01. -/
def amountOk (o : Option ℚ) : Bool :=
  o.all (fun a => decide ((1 : ℚ)/100 ≤ a))

/-- The request body of `POST /api/budgets`. -/
structure BudgetCreateReq where
  category : ℕ
  amount : ℚ
  period : Period
  startDate : DateTime
  endDate : DateTime
  alertThresholds : Option AlertThresholds
  notes : Option String
deriving DecidableEq, Repr, Inhabited

/-- The budget document the POST handler persists for a request. -/
def newBudget (userId : ℕ) (req : BudgetCreateReq) : Budget :=
  { user := userId
    category := req.category
    amount := req.amount
    period := req.period
    startDate := req.startDate
    endDate := req.endDate
    spent := 0
    alertThresholds := req.alertThresholds.getD ⟨80, 95⟩
    notifications := ⟨true, none, none, none⟩
    isActive := true
    notes := req.notes.getD "" }

/-- `POST /api/budgets`: body validation, then the expense-category
ownership check, then the overlap check
(`startDate <= new.endDate && endDate >= new.startDate` on active budgets
of the same user, category and period), then creation. -/
def createBudget (userId : ℕ) (cats : List Category) (budgets : List Budget)
    (req : BudgetCreateReq) : Except String Budget :=
  if ¬ ((1 : ℚ)/100 ≤ req.amount) then .error "Validation failed"
  else
    match cats.find? (fun c => c.id == req.category && c.user == userId &&
        c.type == TxType.expense && c.isActive) with
    | none => .error "Invalid expense category"
    | some _ =>
      match budgets.find? (fun b => b.user == userId &&
          b.category == req.category && b.period == req.period &&
          b.isActive && dateLe b.startDate req.endDate &&
          dateLe req.startDate b.endDate) with
      | some _ => .error "Budget already exists for this category and period"
      | none => .ok (newBudget userId req)

/-- The overlap condition of the POST budget handler's `findOne`. -/
def overlapsExisting (userId : ℕ) (budgets : List Budget)
    (req : BudgetCreateReq) : Prop :=
  ∃ b ∈ budgets, b.user = userId ∧ b.category = req.category ∧
    b.period = req.period ∧ b.isActive = true ∧
    dateLe b.startDate req.endDate = true ∧
    dateLe req.startDate b.endDate = true

/-- C8: for a request that passes body validation and references a valid
active expense category of the user, budget creation is rejected exactly
when an active budget of the same (user, category, period) overlaps under
the inclusive test `existing.start ≤ new.end ∧ existing.end ≥ new.start`,
and otherwise the budget is created. -/
theorem createBudget_overlap_iff (userId : ℕ) (cats : List Category)
    (budgets : List Budget) (req : BudgetCreateReq)
    (hamt : (1 : ℚ)/100 ≤ req.amount)
    (hcat : (cats.find? (fun c => c.id == req.category && c.user == userId &&
      c.type == TxType.expense && c.isActive)).isSome) :
    (overlapsExisting userId budgets req →
      createBudget userId cats budgets req =
        .error "Budget already exists for this category and period") ∧
    (¬ overlapsExisting userId budgets req →
      createBudget userId cats budgets req = .ok (newBudget userId req)) := by
  obtain ⟨c, hc⟩ := Option.isSome_iff_exists.mp hcat
  have hamt2 : (100 : ℚ)⁻¹ ≤ req.amount := by rwa [one_div] at hamt
  constructor
  · rintro ⟨b, hb, h1, h2, h3, h4, h5, h6⟩
    have hsome : (budgets.find? (fun b => b.user == userId &&
        b.category == req.category && b.period == req.period &&
        b.isActive && dateLe b.startDate req.endDate &&
        dateLe req.startDate b.endDate)).isSome :=
      List.find?_isSome.mpr ⟨b, hb, by simp [h1, h2, h3, h4, h5, h6]⟩
    obtain ⟨b', hb'⟩ := Option.isSome_iff_exists.mp hsome
    simp [createBudget, hamt2, hc, hb']
  · intro hno
    have hnone : budgets.find? (fun b => b.user == userId &&
        b.category == req.category && b.period == req.period &&
        b.isActive && dateLe b.startDate req.endDate &&
        dateLe req.startDate b.endDate) = none := by
      cases hopt : budgets.find? (fun b => b.user == userId &&
          b.category == req.category && b.period == req.period &&
          b.isActive && dateLe b.startDate req.endDate &&
          dateLe req.startDate b.endDate) with
      | none => rfl
      | some b =>
        have hsome : (budgets.find? (fun b => b.user == userId &&
            b.category == req.category && b.period == req.period &&
            b.isActive && dateLe b.startDate req.endDate &&
            dateLe req.startDate b.endDate)).isSome := by
          rw [hopt]; rfl
        obtain ⟨b', hb'mem, hb'p⟩ := List.find?_isSome.mp hsome
        rw [Bool.and_eq_true, Bool.and_eq_true, Bool.and_eq_true,
          Bool.and_eq_true, Bool.and_eq_true] at hb'p
        exact absurd ⟨b', hb'mem, by simpa using hb'p.1.1.1.1.1,
          by simpa using hb'p.1.1.1.1.2, by simpa using hb'p.1.1.1.2,
          hb'p.1.1.2, hb'p.1.2, hb'p.2⟩ hno
    simp [createBudget, hamt2, hc, hnone]

/-- Witness for C8, both branches: against an empty budget list the
request is created; against a list holding an overlapping active monthly
budget on the same category it is rejected. -/
theorem createBudget_overlap_iff_witness :
    createBudget 7 [⟨4, 7, "Rent", .expense, "#333333", "tag", false, true⟩]
      [] ⟨4, 500, .monthly, ⟨2024, 3, 1, 0⟩, ⟨2024, 3, 31, 0⟩, none, none⟩
      = .ok (newBudget 7
        ⟨4, 500, .monthly, ⟨2024, 3, 1, 0⟩, ⟨2024, 3, 31, 0⟩, none, none⟩) ∧
    createBudget 7 [⟨4, 7, "Rent", .expense, "#333333", "tag", false, true⟩]
      [newBudget 7 ⟨4, 400, .monthly, ⟨2024, 3, 15, 0⟩, ⟨2024, 4, 14, 0⟩,
        none, none⟩]
      ⟨4, 500, .monthly, ⟨2024, 3, 1, 0⟩, ⟨2024, 3, 31, 0⟩, none, none⟩
      = .error "Budget already exists for this category and period" :=
  ⟨(createBudget_overlap_iff 7
      [⟨4, 7, "Rent", .expense, "#333333", "tag", false, true⟩] []
      ⟨4, 500, .monthly, ⟨2024, 3, 1, 0⟩, ⟨2024, 3, 31, 0⟩, none, none⟩
      (by norm_num) rfl).2 (by
      rintro ⟨b, hb, -⟩
      exact absurd hb (List.not_mem_nil b)),
   (createBudget_overlap_iff 7
      [⟨4, 7, "Rent", .expense, "#333333", "tag", false, true⟩]
      [newBudget 7 ⟨4, 400, .monthly, ⟨2024, 3, 15, 0⟩, ⟨2024, 4, 14, 0⟩,
        none, none⟩]
      ⟨4, 500, .monthly, ⟨2024, 3, 1, 0⟩, ⟨2024, 3, 31, 0⟩, none, none⟩
      (by norm_num) rfl).1
     ⟨newBudget 7 ⟨4, 400, .monthly, ⟨2024, 3, 15, 0⟩, ⟨2024, 4, 14, 0⟩,
        none, none⟩,
      List.mem_cons_self _ _, rfl, rfl, rfl, rfl, rfl, rfl⟩⟩

/-- `body('description').optional().trim().isLength({ min: 1, max: 200 })`. -/
def descriptionOk (o : Option String) : Bool :=
  o.all (fun d => decide (1 ≤ d.trim.length) && decide (d.trim.length ≤ 200))

/-- The request body of `POST /api/transactions`. -/
structure TxCreateReq where
  type : TxType
  amount : ℚ
  description : String
  category : ℕ
  date : Option DateTime
  tags : Option (List String)
  paymentMethod : Option PaymentMethod
  notes : Option String
deriving DecidableEq, Repr, Inhabited

/-- `POST /api/transactions`: body validation, then the category
ownership/type check (`_id, user, type: type, isActive: true`), then
creation. -/
def createTransaction (userId : ℕ) (cats : List Category) (now : DateTime)
    (req : TxCreateReq) : Except String Transaction :=
  if ¬ ((1 : ℚ)/100 ≤ req.amount) then .error "Validation failed"
  else if ¬ (1 ≤ req.description.trim.length ∧
      req.description.trim.length ≤ 200) then .error "Validation failed"
  else
    match cats.find? (fun c => c.id == req.category && c.user == userId &&
        c.type == req.type && c.isActive) with
    | none => .error "Invalid category for this transaction type"
    | some _ => .ok
        { user := userId
          type := req.type
          amount := req.amount
          description := req.description.trim
          category := req.category
          date := req.date.getD now
          tags := req.tags.getD []
          paymentMethod := req.paymentMethod.getD .other
          notes := req.notes.getD "" }

/-- The request body of `PUT /api/transactions/:id`: every field optional. -/
structure TxUpdates where
  type : Option TxType
  amount : Option ℚ
  description : Option String
  category : Option ℕ
  date : Option DateTime
  tags : Option (List String)
  paymentMethod : Option PaymentMethod
  notes : Option String
deriving DecidableEq, Repr, Inhabited

/-- The PUT handler's `Object.keys(updates).forEach` assignment loop:
every supplied field overwrites the stored transaction. -/
def applyTxUpdates (tx : Transaction) (u : TxUpdates) : Transaction :=
  { tx with
    type := u.type.getD tx.type
    amount := u.amount.getD tx.amount
    description := u.description.getD tx.description
    category := u.category.getD tx.category
    date := u.date.getD tx.date
    tags := u.tags.getD tx.tags
    paymentMethod := u.paymentMethod.getD tx.paymentMethod
    notes := u.notes.getD tx.notes }

/-- `PUT /api/transactions/:id` after the owned transaction is found:
optional-field validation, then — only when the body supplies `category` —
the category check against `updates.type || transaction.type`, then the
assignment loop. -/
def updateTransaction (userId : ℕ) (cats : List Category) (tx : Transaction)
    (u : TxUpdates) : Except String Transaction :=
  if amountOk u.amount = false then .error "Validation failed"
  else if descriptionOk u.description = false then .error "Validation failed"
  else
    match u.category with
    | some cid =>
      match cats.find? (fun c => c.id == cid && c.user == userId &&
          c.type == u.type.getD tx.type && c.isActive) with
      | none => .error "Invalid category for this transaction type"
      | some _ => .ok (applyTxUpdates tx u)
    | none => .ok (applyTxUpdates tx u)

/-- The invariant of C9: the transaction's category reference, when it
resolves, has the transaction's own type. -/
def categoryTypeMatches (cats : List Category) (tx : Transaction) : Prop :=
  ∀ c, cats.find? (fun cc => cc.id == tx.category) = some c →
    c.type = tx.type

/-- C9 evidence: a stored expense transaction on the (correctly typed,
active, owned) expense category 1, updated with body `{ type: 'income' }`
and no `category` field, is accepted — the category check is skipped — and
the result pairs an income transaction with an expense category, breaking
the invariant that held before the update. -/
theorem updateTransaction_type_change_breaks_invariant :
    updateTransaction 7
      [⟨1, 7, "Food", .expense, "#ef4444", "tag", false, true⟩]
      ⟨7, .expense, 20, "lunch", 1, ⟨2024, 5, 2, 0⟩, [], .other, ""⟩
      ⟨some .income, none, none, none, none, none, none, none⟩
      = .ok ⟨7, .income, 20, "lunch", 1, ⟨2024, 5, 2, 0⟩, [], .other, ""⟩ ∧
    categoryTypeMatches
      [⟨1, 7, "Food", .expense, "#ef4444", "tag", false, true⟩]
      ⟨7, .expense, 20, "lunch", 1, ⟨2024, 5, 2, 0⟩, [], .other, ""⟩ ∧
    ¬ categoryTypeMatches
      [⟨1, 7, "Food", .expense, "#ef4444", "tag", false, true⟩]
      ⟨7, .income, 20, "lunch", 1, ⟨2024, 5, 2, 0⟩, [], .other, ""⟩ := by
  refine ⟨rfl, ?_, ?_⟩
  · intro c hc
    have : some (⟨1, 7, "Food", .expense, "#ef4444", "tag", false, true⟩ :
        Category) = some c := hc
    cases this
    rfl
  · intro h
    have : some (⟨1, 7, "Food", .expense, "#ef4444", "tag", false, true⟩ :
        Category) = some (⟨1, 7, "Food", .expense, "#ef4444", "tag", false,
          true⟩ : Category) := rfl
    have h2 := h ⟨1, 7, "Food", .expense, "#ef4444", "tag", false, true⟩ this
    exact absurd h2 (by simp)

/-- The request body of `PUT /api/budgets/:id`: every field optional,
including the `category` and `period` keys the handler refuses to copy. -/
structure BudgetUpdates where
  category : Option ℕ
  period : Option Period
  amount : Option ℚ
  startDate : Option DateTime
  endDate : Option DateTime
  spent : Option ℚ
  alertThresholds : Option AlertThresholds
  notifications : Option BudgetNotifications
  isActive : Option Bool
  notes : Option String
deriving DecidableEq, Repr, Inhabited

/-- The PUT budget handler's assignment loop: every supplied key is copied
onto the budget except `category` and `period`
(`key !== 'category' && key !== 'period'`). -/
def applyBudgetUpdates (b : Budget) (u : BudgetUpdates) : Budget :=
  { b with
    amount := u.amount.getD b.amount
    startDate := u.startDate.getD b.startDate
    endDate := u.endDate.getD b.endDate
    spent := u.spent.getD b.spent
    alertThresholds := u.alertThresholds.getD b.alertThresholds
    notifications := u.notifications.getD b.notifications
    isActive := u.isActive.getD b.isActive
    notes := u.notes.getD b.notes }

/-- `PUT /api/budgets/:id` after the owned budget is found: the optional
amount validation, then the assignment loop. -/
def updateBudget (b : Budget) (u : BudgetUpdates) : Except String Budget :=
  if amountOk u.amount = false then .error "Validation failed"
  else .ok (applyBudgetUpdates b u)

/-- C10: whatever the PUT body contains, an accepted budget update leaves
`category` and `period` unchanged, while every other supplied field takes
the supplied value (and keeps the stored one when absent). -/
theorem updateBudget_immutable_category_period (b : Budget)
    (u : BudgetUpdates) (b' : Budget) (h : updateBudget b u = .ok b') :
    b'.category = b.category ∧ b'.period = b.period ∧
    b'.amount = u.amount.getD b.amount ∧
    b'.startDate = u.startDate.getD b.startDate ∧
    b'.endDate = u.endDate.getD b.endDate ∧
    b'.spent = u.spent.getD b.spent ∧
    b'.alertThresholds = u.alertThresholds.getD b.alertThresholds ∧
    b'.notifications = u.notifications.getD b.notifications ∧
    b'.isActive = u.isActive.getD b.isActive ∧
    b'.notes = u.notes.getD b.notes := by
  unfold updateBudget at h
  split at h
  · cases h
  · cases h
    exact ⟨rfl, rfl, rfl, rfl, rfl, rfl, rfl, rfl, rfl, rfl⟩

/-- Witness for C10: a body that tries to set `category := 99` and
`period := yearly` (and legitimately sets `notes`) leaves the stored
category 1 and monthly period untouched. -/
theorem updateBudget_immutable_category_period_witness :
    (applyBudgetUpdates
      { user := 7, category := 1, amount := 300, period := .monthly,
        startDate := ⟨2024, 3, 1, 0⟩, endDate := ⟨2024, 3, 31, 0⟩,
        spent := 10, alertThresholds := ⟨80, 95⟩,
        notifications := ⟨true, none, none, none⟩, isActive := true,
        notes := "" }
      ⟨some 99, some .yearly, none, none, none, none, none, none, none,
        some "new notes"⟩).category = 1 ∧
    (applyBudgetUpdates
      { user := 7, category := 1, amount := 300, period := .monthly,
        startDate := ⟨2024, 3, 1, 0⟩, endDate := ⟨2024, 3, 31, 0⟩,
        spent := 10, alertThresholds := ⟨80, 95⟩,
        notifications := ⟨true, none, none, none⟩, isActive := true,
        notes := "" }
      ⟨some 99, some .yearly, none, none, none, none, none, none, none,
        some "new notes"⟩).period = .monthly :=
  ⟨(updateBudget_immutable_category_period
      { user := 7, category := 1, amount := 300, period := .monthly,
        startDate := ⟨2024, 3, 1, 0⟩, endDate := ⟨2024, 3, 31, 0⟩,
        spent := 10, alertThresholds := ⟨80, 95⟩,
        notifications := ⟨true, none, none, none⟩, isActive := true,
        notes := "" }
      ⟨some 99, some .yearly, none, none, none, none, none, none, none,
        some "new notes"⟩ _ rfl).1,
   (updateBudget_immutable_category_period
      { user := 7, category := 1, amount := 300, period := .monthly,
        startDate := ⟨2024, 3, 1, 0⟩, endDate := ⟨2024, 3, 31, 0⟩,
        spent := 10, alertThresholds := ⟨80, 95⟩,
        notifications := ⟨true, none, none, none⟩, isActive := true,
        notes := "" }
      ⟨some 99, some .yearly, none, none, none, none, none, none, none,
        some "new notes"⟩ _ rfl).2.1⟩
